import Mathlib

/-!
Verification of the MindCanvas teacher-actions service (src/main.py) against its
natural-language specification.  The Python source is shallowly embedded below:
pydantic models become structures, Python floats become exact rationals (ℚ),
handlers become pure Lean functions, and code that can raise (empty-list `max`,
`i % 0`) returns `Option`.  The FastAPI `Depends(require_api_key)` wiring is
modelled by `protectedRoute`, which runs the gate before the handler.
-/

namespace MindCanvas

/-- Models Python truthiness for the optional header value: `not x_api_key`
is true exactly when the header is missing (`None`) or the empty string. -/
def pyFalsyStr : Option String → Bool
  | none => true
  | some s => s == ""

/-- Embedding of `require_api_key` (src/main.py lines 14-17): raises HTTP 401
when `not x_api_key or x_api_key != API_KEY`, otherwise returns `True`. -/
def require_api_key (x_api_key : Option String) (api_key : String) : Except Nat Bool :=
  if pyFalsyStr x_api_key = true ∨ x_api_key ≠ some api_key then
    Except.error 401
  else
    Except.ok true

/-- Models a FastAPI route with `dependencies=[Depends(require_api_key)]`:
the gate runs first; when it raises, the response is the 401 error and the
handler body is never executed. -/
def protectedRoute {α β : Type} (handler : α → β) (x : Option String) (key : String)
    (body : α) : Except Nat β :=
  match require_api_key x key with
  | Except.error c => Except.error c
  | Except.ok _ => Except.ok (handler body)

/-- Request model `LessonPlanReq` (duration_minutes has `ge=15`). -/
structure LessonPlanReq where
  subject : String
  grade_level : String
  standards : Option (List String) := none
  duration_minutes : ℤ
  learning_objectives : Option (List String) := none
  differentiation : Option Bool := some false
deriving DecidableEq, Repr

/-- The question-type literal `{"mcq", "true_false", "short_answer"}`. -/
inductive QType where
  | mcq
  | true_false
  | short_answer
deriving DecidableEq, Repr

/-- Request model `QuizReq` (`num_questions` has `ge=1, le=50`; note the
source puts no non-empty constraint on `question_types`). -/
structure QuizReq where
  topic : String
  grade_level : Option String := none
  question_types : List QType
  num_questions : ℕ
  difficulty : Option String := some "mixed"
  include_rationales : Option Bool := some false
deriving DecidableEq, Repr

/-- The dict built by `simple_mcq`. -/
structure McqQ where
  id : String
  stem : String
  choices : List String
  answer : String
deriving DecidableEq, Repr

/-- A generated quiz question (the three dict shapes used by `generate_quiz`). -/
inductive Question where
  | mcq (q : McqQ)
  | tf (id : String) (stem : String) (answer : Bool)
  | sa (id : String) (stem : String)
deriving DecidableEq, Repr

/-- Response model `QuizResp`. -/
structure QuizResp where
  questions : List Question
  answer_key : List String
deriving DecidableEq, Repr

/-- Model `RubricLevel`: note the source declares `points : float` with no
lower bound. -/
structure RubricLevel where
  label : String
  points : ℚ
  descriptor : Option String := none
deriving DecidableEq, Repr

/-- Model `RubricCriterion` (`weight` defaults to 1.0 with `ge=0`; the source
puts no non-empty constraint on `levels`). -/
structure RubricCriterion where
  criterion : String
  levels : List RubricLevel
  weight : Option ℚ := some 1
deriving DecidableEq, Repr

/-- Request model `GradeWithRubricReq`. -/
structure GradeWithRubricReq where
  rubric : List RubricCriterion
  student_response : String
  max_total_points : Option ℚ := none
deriving DecidableEq, Repr

/-- One entry of the `criteria` detail list built by `grade_with_rubric`. -/
structure CriterionDetail where
  criterion : String
  selected_level : String
  points_awarded : ℚ
deriving DecidableEq, Repr

/-- Response model `GradeWithRubricResp`. -/
structure GradeWithRubricResp where
  total_points : ℚ
  criteria : List CriterionDetail
  feedback : String
deriving DecidableEq, Repr

/-- Request model `MapObjectivesReq` (frameworks modelled as strings). -/
structure MapObjectivesReq where
  frameworks : Option (List String) := none
  objectives : List String
deriving DecidableEq, Repr

/-- One mapping dict of `map_objectives_to_standards`. -/
structure ObjectiveMapping where
  objective : String
  framework : String
  suggested_standard : String
  confidence : ℚ
deriving DecidableEq, Repr

/-- Response model `MapObjectivesResp`. -/
structure MapObjectivesResp where
  mappings : List ObjectiveMapping
deriving DecidableEq, Repr

/-- Model `AvailabilityBlock`. -/
structure AvailabilityBlock where
  start_iso : String
  end_iso : String
deriving DecidableEq, Repr

/-- Request model `ScheduleConferenceReq`. -/
structure ScheduleConferenceReq where
  student_name : String
  guardians : List String
  preferred_modalities : Option (List String) := none
  teacher_availability_blocks : List AvailabilityBlock
  language : Option String := some "English"
deriving DecidableEq, Repr

/-- One proposal dict of `schedule_parent_conference`. -/
structure Proposal where
  start_iso : String
  end_iso : String
  modality : String
deriving DecidableEq, Repr

/-- Response model `ScheduleConferenceResp`. -/
structure ScheduleConferenceResp where
  proposals : List Proposal
  invite_draft : String
deriving DecidableEq, Repr

/-- Model `ProgressEntry` (`score` has `ge=0`, `max_score` has `gt=0`). -/
structure ProgressEntry where
  date : String
  standard : String
  score : ℚ
  max_score : ℚ
  assessment_type : Option String := some "other"
  notes : Option String := none
deriving DecidableEq, Repr

/-- Request model `TrackProgressReq`. -/
structure TrackProgressReq where
  student_id : String
  entries : List ProgressEntry
  rollup_window : Option String := some "unit"
deriving DecidableEq, Repr

/-- One mastery dict of `track_student_progress`. -/
structure MasteryRecord where
  standard : String
  avg_mastery : ℚ
  samples : ℕ
deriving DecidableEq, Repr

/-- Response model `TrackProgressResp`. -/
structure TrackProgressResp where
  mastery : List MasteryRecord
deriving DecidableEq, Repr

/-- Request model `AnalyzeExitReq` (`num_groups` has `ge=2, le=8`,
`return_exemplars_per_group` has `ge=0, le=5`). -/
structure AnalyzeExitReq where
  prompt : String
  responses : List String
  num_groups : Option ℤ := some 3
  return_exemplars_per_group : Option ℤ := some 1
deriving DecidableEq, Repr

/-- One group dict of `analyze_exit_tickets`. -/
structure ExitGroup where
  group : ℕ
  label : String
  responses : List String
deriving DecidableEq, Repr

/-- Response model `AnalyzeExitResp`. -/
structure AnalyzeExitResp where
  groups : List ExitGroup
  misconceptions : List String
deriving DecidableEq, Repr

/-- Payload of the unauthenticated `GET /` route. -/
structure RootResp where
  status : String
  service : String
  time : String
deriving DecidableEq, Repr

/-- Pydantic field constraints of `LessonPlanReq` as declared in the source. -/
def validLessonPlanReq (r : LessonPlanReq) : Bool :=
  decide (15 ≤ r.duration_minutes)

/-- Pydantic field constraints of `QuizReq` as declared in the source: only
the bounds on `num_questions` (the `question_types` list may be empty). -/
def validQuizReq (r : QuizReq) : Bool :=
  decide (1 ≤ r.num_questions) && decide (r.num_questions ≤ 50)

/-- Pydantic field constraints of `RubricCriterion` as declared in the source:
only `weight ≥ 0` when present (the `levels` list may be empty, and
`RubricLevel.points` is unconstrained). -/
def validRubricCriterion (c : RubricCriterion) : Bool :=
  match c.weight with
  | none => true
  | some w => decide (0 ≤ w)

/-- Pydantic validation of a whole `GradeWithRubricReq`. -/
def validGradeReq (r : GradeWithRubricReq) : Bool :=
  r.rubric.all validRubricCriterion

/-- Pydantic field constraints of `ProgressEntry` as declared in the source. -/
def validProgressEntry (e : ProgressEntry) : Bool :=
  decide (0 ≤ e.score) && decide (0 < e.max_score)

/-- Models Python `x or default` on an optional list argument: the default is
used when the value is `None` or the empty list (both falsy). -/
def orDefault {α : Type} (o : Option (List α)) (d : List α) : List α :=
  match o with
  | none => d
  | some l => if l.isEmpty then d else l

/-- The `meta` sub-dict of the lesson plan. -/
structure LessonPlanMeta where
  generated_at : String
  subject : String
  grade_level : String
  duration_minutes : ℤ
  standards : List String
deriving DecidableEq, Repr

/-- One entry of the lesson plan `sequence` list. -/
structure Phase where
  phase : String
  minutes : ℤ
  activity : String
deriving DecidableEq, Repr

/-- The `assessment` sub-dict of the lesson plan. -/
structure Assessment where
  type : String
  criteria : List String
deriving DecidableEq, Repr

/-- The `differentiation` sub-dict of the lesson plan. -/
structure DifferentiationInfo where
  enabled : Bool
  notes : String
deriving DecidableEq, Repr

/-- The lesson-plan dict returned by `create_lesson_plan`. -/
structure LessonPlan where
  meta : LessonPlanMeta
  objectives : List String
  materials : List String
  sequence : List Phase
  assessment : Assessment
  differentiation : DifferentiationInfo
deriving DecidableEq, Repr

/-- Embedding of `create_lesson_plan` (src/main.py lines 132-154); the wall
clock read by `now_iso` is passed in as `clock`. -/
def create_lesson_plan (body : LessonPlanReq) (clock : String) : LessonPlan :=
  { meta :=
      { generated_at := clock
        subject := body.subject
        grade_level := body.grade_level
        duration_minutes := body.duration_minutes
        standards := orDefault body.standards [] }
    objectives := orDefault body.learning_objectives ["Students will ..."]
    materials := ["Projector", "Slides", "Handout"]
    sequence :=
      [{ phase := "Do Now", minutes := 5, activity := "Warm-up prompt" },
       { phase := "Mini-lesson", minutes := 15, activity := "Direct instruction" },
       { phase := "Guided Practice", minutes := 20, activity := "Partner work" },
       { phase := "Independent Practice", minutes := body.duration_minutes - 45,
         activity := "Task" },
       { phase := "Exit Ticket", minutes := 5, activity := "Quick check" }]
    assessment := { type := "exit_ticket", criteria := ["Accuracy", "Reasoning"] }
    differentiation :=
      { enabled := body.differentiation.getD false
        notes := "Scaffolds and extensions suggested." } }

/-- Embedding of `simple_mcq` (src/main.py lines 122-129). -/
def simple_mcq (i : ℕ) (topic : String) : McqQ :=
  { id := "Q" ++ toString (i + 1)
    stem := "Which statement about " ++ topic ++ " is correct?"
    choices := ["A", "B", "C", "D"]
    answer := "A" }

/-- One iteration of the `generate_quiz` loop body: the question appended to
`qs` and the string appended to `ak` for a question of type `qt` at index `i`.
For mcq the key is `q["answer"]`, the answer field of the generated dict. -/
def quizItem (topic : String) (qt : QType) (i : ℕ) : Question × String :=
  match qt with
  | QType.mcq =>
      let q := simple_mcq i topic
      (Question.mcq q, q.answer)
  | QType.true_false =>
      (Question.tf ("Q" ++ toString (i + 1)) (topic ++ ": True or False?") true, "True")
  | QType.short_answer =>
      (Question.sa ("Q" ++ toString (i + 1)) ("Briefly explain " ++ topic ++ "."),
       "<free-response>")

/-- The `for i in range(...)` loop of `generate_quiz`, indexing
`question_types[i % len(question_types)]`.  When the list is empty the lookup
models Python's `ZeroDivisionError` (`i % 0`) by returning `none`. -/
def quizLoop (body : QuizReq) : List ℕ → Option (List (Question × String))
  | [] => some []
  | i :: is =>
    match body.question_types[i % body.question_types.length]? with
    | none => none
    | some qt => (quizLoop body is).map (fun rest => quizItem body.topic qt i :: rest)

/-- Embedding of `generate_quiz` (src/main.py lines 156-172). -/
def generate_quiz (body : QuizReq) : Option QuizResp :=
  (quizLoop body (List.range body.num_questions)).map
    (fun items => { questions := items.map Prod.fst, answer_key := items.map Prod.snd })

/-- Models `c.weight or 1.0` in `grade_with_rubric`: Python `or` replaces both
`None` and the falsy value `0.0` with the default `1.0`. -/
def effWeight (c : RubricCriterion) : ℚ :=
  match c.weight with
  | none => 1
  | some w => if w = 0 then 1 else w

/-- One comparison step of Python `max(levels, key=lambda lvl: lvl.points)`:
the running maximum is replaced only on a strictly greater key, so the first
maximal element wins. -/
def stepMax (best x : RubricLevel) : RubricLevel :=
  if best.points < x.points then x else best

/-- Python `max` over the non-empty list `l :: ls` with key `points`. -/
def maxByPointsNE (l : RubricLevel) (ls : List RubricLevel) : RubricLevel :=
  ls.foldl stepMax l

/-- The accumulation loop of `grade_with_rubric`: running total and detail
list.  A criterion with an empty `levels` list models Python's
`ValueError: max() arg is an empty sequence` by returning `none`. -/
def gradeLoop : List RubricCriterion → Option (ℚ × List CriterionDetail)
  | [] => some (0, [])
  | c :: cs =>
    match c.levels with
    | [] => none
    | l :: ls =>
      let top := maxByPointsNE l ls
      let pts := top.points * effWeight c
      match gradeLoop cs with
      | none => none
      | some (t, ds) =>
          some (pts + t, { criterion := c.criterion, selected_level := top.label,
                           points_awarded := pts } :: ds)

/-- Models `if body.max_total_points: total = min(total, body.max_total_points)`:
the clamp is applied only when the cap is present and truthy (non-zero). -/
def clampTotal (total : ℚ) : Option ℚ → ℚ
  | none => total
  | some m => if m = 0 then total else min total m

/-- The constant feedback string of `grade_with_rubric`. -/
def feedbackMsg : String := "Good structure; consider adding more specific evidence."

/-- Embedding of `grade_with_rubric` (src/main.py lines 174-187). -/
def grade_with_rubric (body : GradeWithRubricReq) : Option GradeWithRubricResp :=
  match gradeLoop body.rubric with
  | none => none
  | some (total, details) =>
      some { total_points := clampTotal total body.max_total_points
             criteria := details
             feedback := feedbackMsg }

/-- Embedding of `map_objectives_to_standards` (src/main.py lines 189-195). -/
def map_objectives_to_standards (body : MapObjectivesReq) : MapObjectivesResp :=
  { mappings :=
      body.objectives.map (fun obj =>
        { objective := obj
          framework := (orDefault body.frameworks ["CCSS"]).headD ""
          suggested_standard := "RL.5.2"
          confidence := 72 / 100 }) }

/-- Embedding of `schedule_parent_conference` (src/main.py lines 197-212). -/
def schedule_parent_conference (body : ScheduleConferenceReq) : ScheduleConferenceResp :=
  let proposals := (body.teacher_availability_blocks.take 3).map (fun blk =>
    { start_iso := blk.start_iso
      end_iso := blk.end_iso
      modality := (orDefault body.preferred_modalities ["zoom"]).headD "" : Proposal })
  { proposals := proposals
    invite_draft :=
      "Hello " ++ String.intercalate ", " body.guardians ++ ",\n\n" ++
      "I\x27d like to meet regarding " ++ body.student_name ++
      ". Here are some proposed times:\n" ++
      String.intercalate "\n"
        (proposals.map (fun p =>
          "- " ++ p.start_iso ++ " to " ++ p.end_iso ++ " (" ++ p.modality ++ ")")) ++
      "\n\nBest,\nMindCanvas" }

/-- One `by_std.setdefault(e.standard, []).append(pct)` step on the grouping
map, modelled as an insertion-ordered association list exactly like a Python
dict: an existing key gets the value appended, a new key goes to the end. -/
def addPct (acc : List (String × List ℚ)) (s : String) (p : ℚ) : List (String × List ℚ) :=
  match acc with
  | [] => [(s, [p])]
  | (t, ps) :: rest =>
      if t = s then (t, ps ++ [p]) :: rest else (t, ps) :: addPct rest s p

/-- The `by_std` grouping dict built by `track_student_progress`. -/
def by_std (entries : List ProgressEntry) : List (String × List ℚ) :=
  entries.foldl (fun acc e => addPct acc e.standard (e.score / e.max_score)) []

/-- Round-half-to-even on an exact rational, modelling Python's built-in
`round` applied to the group mean. -/
def roundHalfEven (q : ℚ) : ℤ :=
  if q - ⌊q⌋ < 1 / 2 then ⌊q⌋
  else if 1 / 2 < q - ⌊q⌋ then ⌊q⌋ + 1
  else if ⌊q⌋ % 2 = 0 then ⌊q⌋ else ⌊q⌋ + 1

/-- Models Python `round(x, 3)` over exact rationals. -/
def round3 (q : ℚ) : ℚ := (roundHalfEven (q * 1000) : ℚ) / 1000

/-- Embedding of `track_student_progress` (src/main.py lines 214-222). -/
def track_student_progress (body : TrackProgressReq) : TrackProgressResp :=
  { mastery :=
      (by_std body.entries).map (fun g =>
        { standard := g.1
          avg_mastery := round3 (g.2.sum / (g.2.length : ℚ))
          samples := g.2.length }) }

/-- Embedding of `analyze_exit_tickets` (src/main.py lines 224-232). -/
def analyze_exit_tickets (body : AnalyzeExitReq) : AnalyzeExitResp :=
  { groups :=
      [{ group := 1, label := "Concise",
         responses := body.responses.filter (fun r => decide (r.length < 50)) },
       { group := 2, label := "Detailed",
         responses := body.responses.filter (fun r => decide (50 ≤ r.length)) }]
    misconceptions := ["Confuses chlorophyll with sugar synthesis"] }

/-- Embedding of the unauthenticated `GET /` route handler. -/
def rootHandler (clock : String) : RootResp :=
  { status := "ok", service := "MindCanvas Teacher Actions", time := clock }

/-- Ambient process state visible to a handler invocation: the wall clock read
by `now_iso` plus an abstract component standing for any other mutable state
of the process.  Handlers are given the whole world so that determinism with a
frozen clock is a real statement, not a typing triviality. -/
structure World where
  clock : String
  other_state : ℕ
deriving DecidableEq, Repr

/-- A request to any of the service's routes. -/
inductive Request where
  | lessonPlan (b : LessonPlanReq)
  | quiz (b : QuizReq)
  | grade (b : GradeWithRubricReq)
  | objectives (b : MapObjectivesReq)
  | conference (b : ScheduleConferenceReq)
  | progress (b : TrackProgressReq)
  | exitTickets (b : AnalyzeExitReq)
  | liveness
deriving DecidableEq, Repr

/-- The response of any of the service's routes. -/
inductive Resp where
  | lessonPlan (r : LessonPlan)
  | quiz (r : Option QuizResp)
  | grade (r : Option GradeWithRubricResp)
  | objectives (r : MapObjectivesResp)
  | conference (r : ScheduleConferenceResp)
  | progress (r : TrackProgressResp)
  | exitTickets (r : AnalyzeExitResp)
  | liveness (r : RootResp)
deriving DecidableEq, Repr

/-- Dispatch of a request to its handler.  Only `create_lesson_plan` and the
liveness route read the clock (`now_iso`); no handler touches any other part
of the world. -/
def handle : Request → World → Resp
  | Request.lessonPlan b, w => Resp.lessonPlan (create_lesson_plan b w.clock)
  | Request.quiz b, _ => Resp.quiz (generate_quiz b)
  | Request.grade b, _ => Resp.grade (grade_with_rubric b)
  | Request.objectives b, _ => Resp.objectives (map_objectives_to_standards b)
  | Request.conference b, _ => Resp.conference (schedule_parent_conference b)
  | Request.progress b, _ => Resp.progress (track_student_progress b)
  | Request.exitTickets b, _ => Resp.exitTickets (analyze_exit_tickets b)
  | Request.liveness, w => Resp.liveness (rootHandler w.clock)

/-- The question type carried by a generated question dict. -/
def Question.qtype : Question → QType
  | Question.mcq _ => QType.mcq
  | Question.tf _ _ _ => QType.true_false
  | Question.sa _ _ => QType.short_answer

/-- The answer-key string the spec prescribes for each question type. -/
def keyFor : QType → String
  | QType.mcq => "A"
  | QType.true_false => "True"
  | QType.short_answer => "<free-response>"

/-- A level whose points dominate every level of the list `L`. -/
def isTopIn (L : List RubricLevel) (a : RubricLevel) : Bool :=
  L.all (fun y => decide (y.points ≤ a.points))

/-- Specification-side selection rule, written from the spec's words: the
first level in the given order whose point value is maximal. -/
def firstMaxLevel (L : List RubricLevel) : Option RubricLevel :=
  L.find? (isTopIn L)

/-- Points awarded for one criterion under the amended reading of the spec:
the first maximal level's points times the effective weight. -/
def awardSpec (c : RubricCriterion) : ℚ :=
  match firstMaxLevel c.levels with
  | some top => top.points * effWeight c
  | none => 0

/-- Detail record for one criterion under the amended reading of the spec. -/
def detailSpec (c : RubricCriterion) : CriterionDetail :=
  match firstMaxLevel c.levels with
  | some top =>
      { criterion := c.criterion, selected_level := top.label,
        points_awarded := top.points * effWeight c }
  | none => { criterion := c.criterion, selected_level := "", points_awarded := 0 }

/-- The list of standards in order of first occurrence, written from the
spec's words about first-seen-standard output order. -/
def dedupKeepFirst : List String → List String
  | [] => []
  | s :: rest => s :: (dedupKeepFirst rest).filter (fun t => decide (t ≠ s))

/-- The mastery percentages of the entries sharing a given standard, in input
order, written from the spec's words. -/
def stdPcts (entries : List ProgressEntry) (s : String) : List ℚ :=
  (entries.filter (fun e => decide (e.standard = s))).map (fun e => e.score / e.max_score)

/-- Specification-side grouping: one pair per first-seen standard carrying the
percentages of all entries with that standard. -/
def groupSpec (entries : List ProgressEntry) : List (String × List ℚ) :=
  (dedupKeepFirst (entries.map (fun e => e.standard))).map
    (fun s => (s, stdPcts entries s))

/-- Concrete request showing the gate rejecting a present header that equals
an empty configured secret. -/
def gateEdgeHeader : Option String := some ""

/-- Concrete rubric request with a negative-points level (accepted by the
declared schema constraints). -/
def gradeNegBody : GradeWithRubricReq :=
  { rubric := [{ criterion := "c",
                 levels := [{ label := "l", points := -1, descriptor := none }],
                 weight := some 1 }]
    student_response := "s"
    max_total_points := none }

/-- Concrete rubric request with a positive score and a provided cap of 0. -/
def gradeZeroCapBody : GradeWithRubricReq :=
  { rubric := [{ criterion := "c",
                 levels := [{ label := "l", points := 5, descriptor := none }],
                 weight := some 1 }]
    student_response := "s"
    max_total_points := some 0 }

/-- Concrete rubric request with an explicit weight of 0. -/
def gradeZeroWeightBody : GradeWithRubricReq :=
  { rubric := [{ criterion := "c",
                 levels := [{ label := "High", points := 5, descriptor := none }],
                 weight := some 0 }]
    student_response := "s"
    max_total_points := none }

/-- Concrete rubric request used as the scenario witness: one criterion
"Clarity" with levels Low=1 and High=4 and weight 2. -/
def gradeScenarioBody : GradeWithRubricReq :=
  { rubric := [{ criterion := "Clarity",
                 levels := [{ label := "Low", points := 1, descriptor := none },
                            { label := "High", points := 4, descriptor := none }],
                 weight := some 2 }]
    student_response := "x"
    max_total_points := none }

/-- Concrete quiz request from the spec's worked example. -/
def quizScenarioBody : QuizReq :=
  { topic := "photosynthesis"
    grade_level := none
    question_types := [QType.mcq, QType.short_answer]
    num_questions := 3
    difficulty := some "mixed"
    include_rationales := some false }

/-- Concrete quiz request with an empty `question_types` list. -/
def quizEmptyTypesBody : QuizReq :=
  { topic := "t"
    grade_level := none
    question_types := []
    num_questions := 1
    difficulty := some "mixed"
    include_rationales := some false }

/-- Concrete rubric request with an empty `levels` list. -/
def gradeEmptyLevelsBody : GradeWithRubricReq :=
  { rubric := [{ criterion := "c", levels := [], weight := some 1 }]
    student_response := "s"
    max_total_points := none }

/-- Concrete progress request with a single 1-out-of-3 entry whose exact mean
1/3 is not representable in three decimals. -/
def progressThirdBody : TrackProgressReq :=
  { student_id := "s"
    entries := [{ date := "d", standard := "STD", score := 1, max_score := 3,
                  assessment_type := some "other", notes := none }]
    rollup_window := some "unit" }

/-- Concrete progress request from the spec's worked example: two entries for
standard RL.5.2 scoring 8/10 and 6/10. -/
def progressScenarioBody : TrackProgressReq :=
  { student_id := "stu"
    entries := [{ date := "2025-01-01", standard := "RL.5.2", score := 8, max_score := 10,
                  assessment_type := some "other", notes := none },
                { date := "2025-01-02", standard := "RL.5.2", score := 6, max_score := 10,
                  assessment_type := some "other", notes := none }]
    rollup_window := some "unit" }

/-- Concrete lesson-plan request with a 60-minute duration. -/
def lessonScenarioBody : LessonPlanReq :=
  { subject := "Math"
    grade_level := "5"
    standards := none
    duration_minutes := 60
    learning_objectives := none
    differentiation := some false }

/-- Concrete rubric request with positive points and a positive cap smaller
than the raw sum. -/
def gradeCapBody : GradeWithRubricReq :=
  { rubric := [{ criterion := "c",
                 levels := [{ label := "l", points := 3, descriptor := none }],
                 weight := some 2 }]
    student_response := "s"
    max_total_points := some 5 }

lemma require_api_key_ok_iff (x : Option String) (key : String) :
    require_api_key x key = Except.ok true ↔ (x = some key ∧ key ≠ "") := by
  rcases x with _ | s
  · simp [require_api_key, pyFalsyStr]
  · by_cases hs : s = ""
    · subst hs
      simp [require_api_key, pyFalsyStr]
      rintro rfl
      simp
    · by_cases hk : s = key
      · subst hk
        simp [require_api_key, pyFalsyStr, hs]
      · simp [require_api_key, pyFalsyStr, hs, hk]

lemma require_api_key_cases (x : Option String) (key : String) :
    require_api_key x key = Except.ok true ∨ require_api_key x key = Except.error 401 := by
  unfold require_api_key
  split
  · right; rfl
  · left; rfl

/-- C1 (amended): the authorization gate succeeds exactly when the
`X-API-Key` header is present, non-empty and equal to the configured secret
(for a non-empty secret this is exactly present-and-equal); in every other
case the protected route answers 401 and the handler is not executed. -/
theorem c1_gate_amended {α β : Type} (f : α → β) (x : Option String) (key : String) (b : α) :
    (protectedRoute f x key b = Except.ok (f b) ↔ (x = some key ∧ key ≠ "")) ∧
    (¬(x = some key ∧ key ≠ "") → protectedRoute f x key b = Except.error 401) := by
  have hiff := require_api_key_ok_iff x key
  rcases require_api_key_cases x key with h | h
  · constructor
    · simp only [protectedRoute, h]
      simp [hiff.mp h]
    · intro hn; exact absurd (hiff.mp h) hn
  · constructor
    · simp only [protectedRoute, h]
      constructor
      · intro hh; exact absurd hh (by simp)
      · intro hx
        have hok := hiff.mpr hx
        rw [hok] at h
        exact absurd h (by simp)
    · intro _
      simp [protectedRoute, h]

/-- C1 (counterexample): with the configured secret equal to the empty
string, a request presenting the header `X-API-Key: ` (present and exactly
equal to the secret) is still rejected with 401, because the gate tests
Python truthiness (`not x_api_key`) before comparing. -/
theorem c1_gate_counterexample :
    gateEdgeHeader = some "" ∧ require_api_key gateEdgeHeader "" = Except.error 401 :=
  ⟨rfl, rfl⟩

/-- Witness for C1: a wrong key is rejected with 401 and the handler runs on
no input. -/
theorem c1_gate_witness :
    protectedRoute (fun n : ℕ => n + 1) (some "wrong") "secret" 7 = Except.error 401 :=
  (c1_gate_amended (fun n : ℕ => n + 1) (some "wrong") "secret" 7).2 (by decide)

/-- C5 (code evaluated at the failing inputs): the declared schema constraints
accept an empty `question_types` list, an empty `levels` list and a negative
`points` value, and the handlers then fail (modelled `none`, a 500 in the
service) instead of the schema layer rejecting with a validation error. -/
theorem c5_schema_gap :
    validQuizReq quizEmptyTypesBody = true ∧
    generate_quiz quizEmptyTypesBody = none ∧
    validGradeReq gradeEmptyLevelsBody = true ∧
    grade_with_rubric gradeEmptyLevelsBody = none ∧
    validGradeReq gradeNegBody = true := by
  refine ⟨by decide, by decide, by decide, by decide, by decide⟩

/-- C7: for every valid lesson-plan request the schedule is the fixed five
phases, with Independent Practice getting `duration_minutes - 45`. -/
theorem c7_lesson_plan_phases (body : LessonPlanReq) (t : String)
    (h : 15 ≤ body.duration_minutes) :
    (create_lesson_plan body t).sequence =
      [{ phase := "Do Now", minutes := 5, activity := "Warm-up prompt" },
       { phase := "Mini-lesson", minutes := 15, activity := "Direct instruction" },
       { phase := "Guided Practice", minutes := 20, activity := "Partner work" },
       { phase := "Independent Practice", minutes := body.duration_minutes - 45,
         activity := "Task" },
       { phase := "Exit Ticket", minutes := 5, activity := "Quick check" }] := rfl

/-- Witness for C7 at a 60-minute request: Independent Practice gets 15. -/
theorem c7_witness :
    (create_lesson_plan lessonScenarioBody "T").sequence =
      [{ phase := "Do Now", minutes := 5, activity := "Warm-up prompt" },
       { phase := "Mini-lesson", minutes := 15, activity := "Direct instruction" },
       { phase := "Guided Practice", minutes := 20, activity := "Partner work" },
       { phase := "Independent Practice", minutes := 15, activity := "Task" },
       { phase := "Exit Ticket", minutes := 5, activity := "Quick check" }] := by
  rw [c7_lesson_plan_phases lessonScenarioBody "T" (by decide)]
  decide

/-- C8: `analyze_exit_tickets` always returns the two fixed groups — Concise
with exactly the responses shorter than 50 characters, Detailed with exactly
those of length at least 50 — plus the single constant misconception string,
and its output does not depend on `num_groups` or
`return_exemplars_per_group`. -/
theorem c8_exit_tickets (body : AnalyzeExitReq) :
    analyze_exit_tickets body =
      { groups :=
          [{ group := 1, label := "Concise",
             responses := body.responses.filter (fun r => decide (r.length < 50)) },
           { group := 2, label := "Detailed",
             responses := body.responses.filter (fun r => decide (50 ≤ r.length)) }]
        misconceptions := ["Confuses chlorophyll with sugar synthesis"] } ∧
    ∀ (n m : Option ℤ),
      analyze_exit_tickets { body with num_groups := n, return_exemplars_per_group := m } =
        analyze_exit_tickets body :=
  ⟨rfl, fun _ _ => rfl⟩

/-- C9: every handler is a deterministic function of the request body and the
clock value — two invocations against worlds that agree on the clock (but may
differ in any other process state) give identical responses. -/
theorem c9_deterministic (r : Request) (w₁ w₂ : World) (h : w₁.clock = w₂.clock) :
    handle r w₁ = handle r w₂ := by
  cases r <;> simp [handle, h]

/-- Witness for C9: the clock-reading liveness route answers identically in
two worlds with equal clocks and different other state. -/
theorem c9_witness :
    handle Request.liveness { clock := "2025-01-01T00:00:00Z", other_state := 0 } =
      handle Request.liveness { clock := "2025-01-01T00:00:00Z", other_state := 99 } :=
  c9_deterministic Request.liveness _ _ rfl

lemma points_le_of_decomp {L pre post : List RubricLevel} {m : RubricLevel}
    (hL : L = pre ++ m :: post)
    (hpre : ∀ x ∈ pre, x.points < m.points)
    (hpost : ∀ x ∈ post, x.points ≤ m.points) :
    ∀ x ∈ L, x.points ≤ m.points := by
  intro x hx
  rw [hL] at hx
  rcases List.mem_append.mp hx with hx | hx
  · exact le_of_lt (hpre x hx)
  · rcases List.mem_cons.mp hx with rfl | hx
    · exact le_refl _
    · exact hpost x hx

lemma maxByPointsNE_decomp (ls : List RubricLevel) :
    ∀ l : RubricLevel,
      ∃ pre post, l :: ls = pre ++ maxByPointsNE l ls :: post ∧
        (∀ x ∈ pre, x.points < (maxByPointsNE l ls).points) ∧
        (∀ x ∈ post, x.points ≤ (maxByPointsNE l ls).points) := by
  induction ls with
  | nil =>
    intro l
    exact ⟨[], [], rfl, by simp, by simp⟩
  | cons x xs ih =>
    intro l
    by_cases hlt : l.points < x.points
    · have hstep : maxByPointsNE l (x :: xs) = maxByPointsNE x xs := by
        simp [maxByPointsNE, stepMax, hlt]
      obtain ⟨pre, post, hdec, hpre, hpost⟩ := ih x
      have hxm : x.points ≤ (maxByPointsNE x xs).points :=
        points_le_of_decomp hdec hpre hpost x (List.mem_cons_self x xs)
      refine ⟨l :: pre, post, ?_, ?_, ?_⟩
      · rw [hstep, List.cons_append, ← hdec]
      · intro y hy
        rcases List.mem_cons.mp hy with rfl | hy
        · rw [hstep]; exact lt_of_lt_of_le hlt hxm
        · rw [hstep]; exact hpre y hy
      · intro y hy; rw [hstep]; exact hpost y hy
    · have hxl : x.points ≤ l.points := le_of_not_lt hlt
      have hstep : maxByPointsNE l (x :: xs) = maxByPointsNE l xs := by
        simp [maxByPointsNE, stepMax, hlt]
      obtain ⟨pre, post, hdec, hpre, hpost⟩ := ih l
      rcases pre with _ | ⟨p, pre⟩
      · rw [List.nil_append] at hdec
        injection hdec with hml hxs
        refine ⟨[], x :: xs, ?_, ?_, ?_⟩
        · rw [hstep, List.nil_append, ← hml]
        · simp
        · intro y hy
          rcases List.mem_cons.mp hy with rfl | hy
          · rw [hstep, ← hml]; exact hxl
          · rw [hstep]; exact hpost y (hxs ▸ hy)
      · rw [List.cons_append] at hdec
        injection hdec with hlp hxs
        subst hlp
        refine ⟨l :: x :: pre, post, ?_, ?_, ?_⟩
        · rw [hstep]
          conv_lhs => rw [hxs]
          simp
        · have hlm : l.points < (maxByPointsNE l xs).points :=
            hpre l (List.mem_cons_self l pre)
          intro y hy
          rcases List.mem_cons.mp hy with rfl | hy
          · rw [hstep]; exact hlm
          · rcases List.mem_cons.mp hy with rfl | hy
            · rw [hstep]; exact lt_of_le_of_lt hxl hlm
            · rw [hstep]; exact hpre y (List.mem_cons_of_mem l hy)
        · intro y hy; rw [hstep]; exact hpost y hy

lemma find?_append_first {α : Type} (p : α → Bool) :
    ∀ (pre : List α) (m : α) (post : List α),
      (∀ a ∈ pre, p a = false) → p m = true →
      (pre ++ m :: post).find? p = some m := by
  intro pre
  induction pre with
  | nil =>
    intro m post _ hm
    rw [List.nil_append]
    exact List.find?_cons_of_pos post hm
  | cons a pre ih =>
    intro m post h0 hm
    have ha : p a = false := h0 a (List.mem_cons_self a pre)
    rw [List.cons_append, List.find?_cons_of_neg _ (by simp [ha])]
    exact ih m post (fun b hb => h0 b (List.mem_cons_of_mem a hb)) hm

lemma firstMaxLevel_cons (l : RubricLevel) (ls : List RubricLevel) :
    firstMaxLevel (l :: ls) = some (maxByPointsNE l ls) := by
  obtain ⟨pre, post, hdec, hpre, hpost⟩ := maxByPointsNE_decomp ls l
  have hall := points_le_of_decomp hdec hpre hpost
  have hP1 : isTopIn (l :: ls) (maxByPointsNE l ls) = true := by
    simp only [isTopIn, List.all_eq_true, decide_eq_true_eq]
    exact hall
  have hmem : maxByPointsNE l ls ∈ l :: ls := by
    rw [hdec]; exact List.mem_append_right _ (List.mem_cons_self _ _)
  have hP0 : ∀ a ∈ pre, isTopIn (l :: ls) a = false := by
    intro a ha
    rw [Bool.eq_false_iff]
    intro habs
    simp only [isTopIn, List.all_eq_true, decide_eq_true_eq] at habs
    exact absurd (habs _ hmem) (not_le.mpr (hpre a ha))
  unfold firstMaxLevel
  have hgen : ∀ P : RubricLevel → Bool, (∀ a ∈ pre, P a = false) →
      P (maxByPointsNE l ls) = true →
      List.find? P (l :: ls) = some (maxByPointsNE l ls) := by
    intro P h0 h1
    rw [hdec]
    exact find?_append_first P pre _ post h0 h1
  exact hgen (isTopIn (l :: ls)) hP0 hP1

lemma gradeLoop_eq : ∀ cs : List RubricCriterion, (∀ c ∈ cs, c.levels ≠ []) →
    gradeLoop cs = some ((cs.map awardSpec).sum, cs.map detailSpec) := by
  intro cs
  induction cs with
  | nil => intro _; simp [gradeLoop]
  | cons c cs ih =>
    intro h
    have hc : c.levels ≠ [] := h c (List.mem_cons_self c cs)
    have ht := ih (fun d hd => h d (List.mem_cons_of_mem c hd))
    rcases hlev : c.levels with _ | ⟨l, ls⟩
    · exact absurd hlev hc
    · have hfm : firstMaxLevel c.levels = some (maxByPointsNE l ls) := by
        rw [hlev]; exact firstMaxLevel_cons l ls
      have haward : awardSpec c = (maxByPointsNE l ls).points * effWeight c := by
        simp only [awardSpec, hfm]
      have hdetail : detailSpec c =
          ⟨c.criterion, (maxByPointsNE l ls).label,
            (maxByPointsNE l ls).points * effWeight c⟩ := by
        simp only [detailSpec, hfm]
      simp [gradeLoop, hlev, ht, haward, hdetail]

lemma grade_with_rubric_eq (body : GradeWithRubricReq)
    (h : ∀ c ∈ body.rubric, c.levels ≠ []) :
    grade_with_rubric body =
      some { total_points := clampTotal ((body.rubric.map awardSpec).sum) body.max_total_points
             criteria := body.rubric.map detailSpec
             feedback := feedbackMsg } := by
  simp [grade_with_rubric, gradeLoop_eq body.rubric h]

/-- C3 (amended): for each criterion the first level attaining the maximal
point value is selected (`firstMaxLevel`), the award is its points times the
criterion's weight when the weight is present and non-zero and times 1.0 when
the weight is absent or zero (`effWeight`), the details carry the selected
label and award, and the total is the sum of awards clamped to
`max_total_points` only when the cap is provided and non-zero
(`clampTotal`). -/
theorem c3_grading_amended (body : GradeWithRubricReq)
    (h : ∀ c ∈ body.rubric, c.levels ≠ []) :
    grade_with_rubric body =
      some { total_points := clampTotal ((body.rubric.map awardSpec).sum) body.max_total_points
             criteria := body.rubric.map detailSpec
             feedback := feedbackMsg } :=
  grade_with_rubric_eq body h

/-- Witness for C3 at the spec's scenario: criterion Clarity with levels
Low=1 and High=4 and weight 2 gives total 8 with High selected. -/
theorem c3_witness :
    grade_with_rubric gradeScenarioBody =
      some { total_points := 8
             criteria := [{ criterion := "Clarity", selected_level := "High",
                            points_awarded := 8 }]
             feedback := feedbackMsg } := by
  rw [c3_grading_amended gradeScenarioBody (by decide)]
  norm_num [gradeScenarioBody, awardSpec, detailSpec, firstMaxLevel, isTopIn,
    maxByPointsNE, stepMax, effWeight, clampTotal, List.find?, feedbackMsg]

/-- C3 (counterexample): with an explicit weight of 0 the claim's award
`points * weight` would be `5 * 0 = 0`, but the code computes
`points * (weight or 1.0) = 5`. -/
theorem c3_counterexample :
    (grade_with_rubric gradeZeroWeightBody).map (fun r => r.total_points) = some 5 ∧
    (5 : ℚ) ≠ 5 * 0 := by
  constructor
  · norm_num [gradeZeroWeightBody, grade_with_rubric, gradeLoop, maxByPointsNE,
      stepMax, effWeight, clampTotal]
  · norm_num

lemma awardSpec_nonneg (c : RubricCriterion)
    (hw : ∀ w ∈ c.weight, 0 ≤ w) (hpts : ∀ l ∈ c.levels, 0 ≤ l.points) :
    0 ≤ awardSpec c := by
  rcases hfm : firstMaxLevel c.levels with _ | top
  · simp [awardSpec, hfm]
  · have hfm' : List.find? (isTopIn c.levels) c.levels = some top := hfm
    have htop : top ∈ c.levels := List.mem_of_find?_eq_some hfm'
    have h1 : 0 ≤ top.points := hpts top htop
    have h2 : 0 ≤ effWeight c := by
      rcases hw' : c.weight with _ | w
      · simp [effWeight, hw']
      · by_cases h0 : w = 0
        · simp [effWeight, hw', h0]
        · have hw0 : 0 ≤ w := hw w (by rw [hw']; rfl)
          simpa [effWeight, hw', h0] using hw0
    simp only [awardSpec, hfm]
    exact mul_nonneg h1 h2

/-- C2 (amended): for every schema-valid request whose rubric levels all
carry non-negative points, the total is non-negative whenever the cap is
absent or non-negative, and the total respects the cap whenever the cap is
provided and non-zero. -/
theorem c2_total_bounds_amended (body : GradeWithRubricReq)
    (hw : ∀ c ∈ body.rubric, ∀ w ∈ c.weight, 0 ≤ w)
    (hne : ∀ c ∈ body.rubric, c.levels ≠ [])
    (hpts : ∀ c ∈ body.rubric, ∀ l ∈ c.levels, 0 ≤ l.points) :
    ∃ r, grade_with_rubric body = some r ∧
      ((∀ m ∈ body.max_total_points, 0 ≤ m) → 0 ≤ r.total_points) ∧
      (∀ m ∈ body.max_total_points, m ≠ 0 → r.total_points ≤ m) := by
  have hraw : 0 ≤ (body.rubric.map awardSpec).sum := by
    apply List.sum_nonneg
    intro a ha
    obtain ⟨c, hc, rfl⟩ := List.mem_map.mp ha
    exact awardSpec_nonneg c (hw c hc) (hpts c hc)
  refine ⟨_, grade_with_rubric_eq body hne, ?_, ?_⟩
  · intro hm
    rcases hmax : body.max_total_points with _ | m
    · simpa [clampTotal, hmax] using hraw
    · have h0m : 0 ≤ m := hm m (by rw [hmax]; rfl)
      by_cases h0 : m = 0
      · simpa [clampTotal, hmax, h0] using hraw
      · simp only [clampTotal, hmax, if_neg h0]
        exact le_min hraw h0m
  · intro m hmem h0
    have hmax : body.max_total_points = some m := hmem
    simp only [clampTotal, hmax, if_neg h0]
    exact min_le_right _ _

/-- C2 (counterexample): a rubric level with points −1 is schema-valid and
yields a negative total; and with a provided cap of 0 the total 5 exceeds the
cap because the clamp is skipped on the falsy value 0. -/
theorem c2_counterexample :
    ((grade_with_rubric gradeNegBody).map (fun r => r.total_points) = some (-1) ∧
      (-1 : ℚ) < 0) ∧
    ((grade_with_rubric gradeZeroCapBody).map (fun r => r.total_points) = some 5 ∧
      gradeZeroCapBody.max_total_points = some 0 ∧ (0 : ℚ) < 5) := by
  refine ⟨⟨?_, by norm_num⟩, ⟨?_, rfl, by norm_num⟩⟩
  · norm_num [gradeNegBody, grade_with_rubric, gradeLoop, maxByPointsNE,
      stepMax, effWeight, clampTotal]
  · norm_num [gradeZeroCapBody, grade_with_rubric, gradeLoop, maxByPointsNE,
      stepMax, effWeight, clampTotal]

/-- Witness for C2: points 3 with weight 2 and cap 5 gives a total between 0
and the cap. -/
theorem c2_witness :
    ∃ r, grade_with_rubric gradeCapBody = some r ∧ 0 ≤ r.total_points ∧
      r.total_points ≤ 5 := by
  obtain ⟨r, hr, h1, h2⟩ :=
    c2_total_bounds_amended gradeCapBody (by norm_num [gradeCapBody]) (by decide)
      (by norm_num [gradeCapBody])
  refine ⟨r, hr, h1 ?_, h2 5 rfl (by norm_num)⟩
  intro m hm
  rw [Option.mem_def] at hm
  have h5 : some (5 : ℚ) = some m := hm
  injection h5 with h5
  rw [← h5]
  norm_num

/-- C10: when `max_total_points` is provided, the clamp applies exactly when
it is non-zero; a provided cap of 0 leaves the raw weighted sum untouched. -/
theorem c10_zero_cap_no_clamp (body : GradeWithRubricReq) (m : ℚ)
    (hmax : body.max_total_points = some m)
    (hne : ∀ c ∈ body.rubric, c.levels ≠ []) :
    ∃ r, grade_with_rubric body = some r ∧
      (m = 0 → r.total_points = (body.rubric.map awardSpec).sum) ∧
      (m ≠ 0 → r.total_points = min ((body.rubric.map awardSpec).sum) m) := by
  refine ⟨_, grade_with_rubric_eq body hne, ?_, ?_⟩
  · intro h0; simp [clampTotal, hmax, h0]
  · intro h0; simp [clampTotal, hmax, h0]

/-- Witness for C10: with a provided cap of 0 the returned total is the raw
sum 5, which exceeds the cap. -/
theorem c10_witness :
    ∃ r, grade_with_rubric gradeZeroCapBody = some r ∧ r.total_points = 5 ∧
      (0 : ℚ) < r.total_points := by
  obtain ⟨r, hr, h0, _⟩ :=
    c10_zero_cap_no_clamp gradeZeroCapBody 0 rfl (by decide)
  have h5 : r.total_points = 5 := by
    rw [h0 rfl]
    norm_num [gradeZeroCapBody, awardSpec, firstMaxLevel, isTopIn, maxByPointsNE,
      stepMax, effWeight, List.find?]
  exact ⟨r, hr, h5, by rw [h5]; norm_num⟩

lemma quizItem_qtype (t : String) (qt : QType) (i : ℕ) :
    ((quizItem t qt i).1).qtype = qt := by
  cases qt <;> rfl

lemma quizItem_key (t : String) (qt : QType) (i : ℕ) :
    (quizItem t qt i).2 = keyFor qt := by
  cases qt <;> rfl

lemma quizLoop_spec (body : QuizReq) (h : body.question_types ≠ []) :
    ∀ is : List ℕ, ∃ l : List (Question × String),
      quizLoop body is = some l ∧ l.length = is.length ∧
      ∀ (k i : ℕ), is[k]? = some i →
        ∃ qt, body.question_types[i % body.question_types.length]? = some qt ∧
          l[k]? = some (quizItem body.topic qt i) := by
  have hlen : 0 < body.question_types.length := List.length_pos.mpr h
  intro is
  induction is with
  | nil =>
    refine ⟨[], rfl, rfl, ?_⟩
    intro k i hk
    simp at hk
  | cons i is ih =>
    obtain ⟨l, hl, hlen2, hk⟩ := ih
    have hidx : i % body.question_types.length < body.question_types.length :=
      Nat.mod_lt i hlen
    obtain ⟨qt, hqt⟩ :
        ∃ qt, body.question_types[i % body.question_types.length]? = some qt :=
      ⟨_, List.getElem?_eq_getElem hidx⟩
    refine ⟨quizItem body.topic qt i :: l, ?_, ?_, ?_⟩
    · simp [quizLoop, hqt, hl]
    · simp [hlen2]
    · intro k j hkj
      cases k with
      | zero =>
        rw [List.getElem?_cons_zero] at hkj
        injection hkj with hkj
        subst hkj
        exact ⟨qt, hqt, by rw [List.getElem?_cons_zero]⟩
      | succ k =>
        rw [List.getElem?_cons_succ] at hkj
        obtain ⟨qt', hqt', hlk⟩ := hk k j hkj
        exact ⟨qt', hqt', by rw [List.getElem?_cons_succ]; exact hlk⟩

/-- C4: with a non-empty `question_types` list, `generate_quiz` returns
exactly `num_questions` questions, an answer key of the same length, question
`i` of type `question_types[i % len]`, and the parallel answer-key entry "A"
for mcq, "True" for true/false and the sentinel for short answer (`keyFor`). -/
theorem c4_generate_quiz (body : QuizReq) (h : body.question_types ≠ []) :
    ∃ resp, generate_quiz body = some resp ∧
      resp.questions.length = body.num_questions ∧
      resp.answer_key.length = resp.questions.length ∧
      ∀ i, i < body.num_questions →
        resp.questions[i]?.map Question.qtype =
          body.question_types[i % body.question_types.length]? ∧
        resp.answer_key[i]? =
          (body.question_types[i % body.question_types.length]?).map keyFor := by
  obtain ⟨l, hl, hlen, hk⟩ := quizLoop_spec body h (List.range body.num_questions)
  refine ⟨{ questions := l.map Prod.fst, answer_key := l.map Prod.snd }, ?_, ?_, ?_, ?_⟩
  · simp [generate_quiz, hl]
  · simp [hlen]
  · simp
  · intro i hi
    have hri : (List.range body.num_questions)[i]? = some i := List.getElem?_range hi
    obtain ⟨qt, hqt, hli⟩ := hk i i hri
    constructor
    · rw [hqt, List.getElem?_map, hli]
      simp [quizItem_qtype]
    · rw [hqt, List.getElem?_map, hli]
      simp [quizItem_key]

/-- Witness for C4 at the spec's scenario request (photosynthesis, types
[mcq, short_answer], 3 questions). -/
theorem c4_witness :
    ∃ resp, generate_quiz quizScenarioBody = some resp ∧
      resp.questions.length = quizScenarioBody.num_questions ∧
      resp.answer_key.length = resp.questions.length ∧
      ∀ i, i < quizScenarioBody.num_questions →
        resp.questions[i]?.map Question.qtype =
          quizScenarioBody.question_types[i % quizScenarioBody.question_types.length]? ∧
        resp.answer_key[i]? =
          (quizScenarioBody.question_types[i % quizScenarioBody.question_types.length]?).map
            keyFor :=
  c4_generate_quiz quizScenarioBody (by decide)

lemma mem_dedupKeepFirst (s : String) : ∀ l : List String, s ∈ dedupKeepFirst l ↔ s ∈ l := by
  intro l
  induction l with
  | nil => simp [dedupKeepFirst]
  | cons x xs ih =>
    simp only [dedupKeepFirst, List.mem_cons, List.mem_filter, ih, decide_eq_true_eq]
    by_cases hx : s = x
    · simp [hx]
    · simp [hx]

lemma nodup_dedupKeepFirst : ∀ l : List String, (dedupKeepFirst l).Nodup := by
  intro l
  induction l with
  | nil => simp [dedupKeepFirst]
  | cons x xs ih =>
    rw [dedupKeepFirst, List.nodup_cons]
    constructor
    · intro hmem
      have := (List.mem_filter.mp hmem).2
      simp at this
    · exact ih.filter _

lemma dedupKeepFirst_append (s : String) :
    ∀ l : List String, dedupKeepFirst (l ++ [s]) =
      if s ∈ l then dedupKeepFirst l else dedupKeepFirst l ++ [s] := by
  intro l
  induction l with
  | nil => simp [dedupKeepFirst]
  | cons x xs ih =>
    simp only [List.cons_append, List.append_eq, dedupKeepFirst, ih]
    by_cases hmem : s ∈ xs
    · rw [if_pos hmem, if_pos (List.mem_cons_of_mem x hmem)]
    · by_cases hx : s = x
      · subst hx
        rw [if_neg hmem, if_pos (List.mem_cons_self s xs)]
        simp [List.filter_append]
      · have hsx : s ∉ x :: xs := by simp [hx, hmem]
        rw [if_neg hmem, if_neg hsx]
        simp [List.filter_append, hx]

lemma addPct_of_not_mem :
    ∀ (acc : List (String × List ℚ)) (s : String) (p : ℚ),
      (∀ q ∈ acc, q.1 ≠ s) → addPct acc s p = acc ++ [(s, [p])] := by
  intro acc
  induction acc with
  | nil => intro s p _; rfl
  | cons q rest ih =>
    intro s p h
    obtain ⟨t, ps⟩ := q
    have ht : t ≠ s := h (t, ps) (List.mem_cons_self _ _)
    simp only [addPct, if_neg ht, List.cons_append]
    rw [ih s p (fun q hq => h q (List.mem_cons_of_mem _ hq))]

lemma addPct_map (f : String → String × List ℚ) (hf : ∀ t, (f t).1 = t) :
    ∀ (ks : List String) (s : String) (p : ℚ), s ∈ ks → ks.Nodup →
      addPct (ks.map f) s p =
        ks.map (fun t => if t = s then ((f t).1, (f t).2 ++ [p]) else f t) := by
  intro ks
  induction ks with
  | nil => intro s p hs _; simp at hs
  | cons x ks ih =>
    intro s p hs hnd
    rw [List.map_cons, List.map_cons]
    obtain ⟨t, ps, hfx⟩ : ∃ t ps, f x = (t, ps) := ⟨(f x).1, (f x).2, rfl⟩
    have htx : t = x := by rw [← hf x, hfx]
    subst htx
    rw [hfx]
    rw [List.nodup_cons] at hnd
    by_cases hx : t = s
    · subst hx
      simp only [addPct]
      have htail : ks.map (fun u => if u = t then ((f u).1, (f u).2 ++ [p]) else f u) =
          ks.map f := by
        apply List.map_congr_left
        intro u hu
        have : u ≠ t := fun hh => hnd.1 (hh ▸ hu)
        simp [this]
      simp [htail, hfx]
    · have hs' : s ∈ ks := by
        rcases List.mem_cons.mp hs with hh | hh
        · exact absurd hh.symm hx
        · exact hh
      simp only [addPct, if_neg hx]
      rw [ih s p hs' hnd.2]

lemma stdPcts_append (es : List ProgressEntry) (e : ProgressEntry) (t : String) :
    stdPcts (es ++ [e]) t =
      stdPcts es t ++ (if e.standard = t then [e.score / e.max_score] else []) := by
  simp only [stdPcts, List.filter_append, List.map_append]
  congr 1
  by_cases he : e.standard = t
  · simp [List.filter, he]
  · simp [List.filter, he]

lemma by_std_eq : ∀ es : List ProgressEntry, by_std es = groupSpec es := by
  intro es
  induction es using List.reverseRecOn with
  | nil => rfl
  | append_singleton es e ih =>
    have hsnoc : by_std (es ++ [e]) =
        addPct (by_std es) e.standard (e.score / e.max_score) := by
      simp [by_std, List.foldl_append]
    rw [hsnoc, ih]
    by_cases hmem : e.standard ∈ es.map (fun x => x.standard)
    · have hdd : e.standard ∈ dedupKeepFirst (es.map (fun x => x.standard)) :=
        (mem_dedupKeepFirst _ _).mpr hmem
      rw [groupSpec,
        addPct_map (fun s => (s, stdPcts es s)) (fun t => rfl) _ _ _ hdd
          (nodup_dedupKeepFirst _),
        groupSpec]
      have hkeys : dedupKeepFirst ((es ++ [e]).map (fun x => x.standard)) =
          dedupKeepFirst (es.map (fun x => x.standard)) := by
        rw [List.map_append]
        simp [dedupKeepFirst_append, hmem]
      rw [hkeys]
      apply List.map_congr_left
      intro t ht
      by_cases hts : t = e.standard
      · subst hts
        rw [if_pos rfl, stdPcts_append]
        simp
      · rw [if_neg hts, stdPcts_append]
        have hne : ¬(e.standard = t) := fun hh => hts hh.symm
        simp [hne]
    · have hdd : e.standard ∉ dedupKeepFirst (es.map (fun x => x.standard)) :=
        fun hh => hmem ((mem_dedupKeepFirst _ _).mp hh)
      rw [groupSpec, addPct_of_not_mem _ _ _ ?side, groupSpec]
      case side =>
        intro q hq
        obtain ⟨t, ht, rfl⟩ := List.mem_map.mp hq
        intro hts
        exact hdd (hts ▸ ht)
      have hkeys : dedupKeepFirst ((es ++ [e]).map (fun x => x.standard)) =
          dedupKeepFirst (es.map (fun x => x.standard)) ++ [e.standard] := by
        rw [List.map_append]
        simp [dedupKeepFirst_append, hmem]
      rw [hkeys, List.map_append]
      congr 1
      · apply List.map_congr_left
        intro t ht
        rw [stdPcts_append]
        have hne : ¬(e.standard = t) := by
          intro hh
          exact hdd (hh ▸ ht)
        simp [hne]
      · have hnil : stdPcts es e.standard = [] := by
          have hfil : es.filter (fun x => decide (x.standard = e.standard)) = [] := by
            rw [List.filter_eq_nil_iff]
            intro a ha
            simp only [decide_eq_true_eq]
            intro hh
            exact hmem (List.mem_map.mpr ⟨a, ha, hh⟩)
          simp [stdPcts, hfil]
        rw [List.map_cons, List.map_nil, stdPcts_append, hnil]
        simp

/-- C6 (amended): the mastery list has one record per first-seen standard in
input order; each record's `samples` is the number of entries with that
standard and its `avg_mastery` is the arithmetic mean of their
`score / max_score` percentages rounded half-to-even to three decimals
(`round3`), matching Python's `round(·, 3)` in the source. -/
theorem c6_mastery_amended (body : TrackProgressReq)
    (hv : ∀ e ∈ body.entries, 0 ≤ e.score ∧ 0 < e.max_score) :
    (track_student_progress body).mastery =
      (dedupKeepFirst (body.entries.map (fun e => e.standard))).map (fun s =>
        { standard := s
          avg_mastery :=
            round3 ((stdPcts body.entries s).sum / ((stdPcts body.entries s).length : ℚ))
          samples := (stdPcts body.entries s).length }) := by
  simp only [track_student_progress, by_std_eq, groupSpec, List.map_map]
  rfl

/-- C6 (counterexample): for a single 1-out-of-3 entry the reported mastery
is the rounded value 0.333, which differs from the exact mean 1/3 — so
`avg_mastery` does not equal the arithmetic mean as claimed. -/
theorem c6_counterexample :
    (track_student_progress progressThirdBody).mastery =
      [{ standard := "STD", avg_mastery := 333 / 1000, samples := 1 }] ∧
    (333 : ℚ) / 1000 ≠ (1 : ℚ) / 3 := by
  constructor
  · norm_num [progressThirdBody, track_student_progress, by_std, addPct, round3,
      roundHalfEven] <;> rw [Int.fract] <;> norm_num
  · norm_num

/-- Witness for C6 at the spec's scenario: two RL.5.2 entries 8/10 and 6/10
give one record with mean 0.7 and two samples. -/
theorem c6_witness :
    (track_student_progress progressScenarioBody).mastery =
      [{ standard := "RL.5.2", avg_mastery := 7 / 10, samples := 2 }] := by
  rw [c6_mastery_amended progressScenarioBody (by norm_num [progressScenarioBody])]
  norm_num [progressScenarioBody, dedupKeepFirst, stdPcts, List.filter, round3,
    roundHalfEven]

end MindCanvas
